import Mathlib

/-!
Verification development for the ModelosDeParalelismo repository.

The repository computes three windowed analytics metrics over meteorological
sensor readings under three execution backends:

* `src/metrics.py` — the sequential reference engine (statistical anomaly rule);
* `src/approach_a_local_processing/process_local.py` — bounded local process pool
  (fixed-bounds anomaly rule);
* `src/approach_b_message_broker/tasks.py`, `worker.py`, `producer.py` — distributed
  queue backend;
* `src/approach_c_spark_processing/process_spark.py` — distributed dataframe engine;
* `src/compare_results.py` — the cross-run comparator.

Numeric columns are embedded as rationals (`Rat`): the Python code computes with
IEEE doubles, and every claim about it is stated up to floating-point tolerance,
so exact rational arithmetic is the intended idealized semantics.  Timestamps are
embedded as integer seconds since the epoch; the 10-minute bucket of pandas
(`pd.Grouper(freq='10min')`, anchored at midnight) and of Spark
(`window("timestamp", "10 minutes")`, anchored at the epoch) is then floor
division by 600.  Python code that raises on some input (e.g. `iloc[0]` on an
empty frame) is embedded with `Option`, `none` standing for the raised exception.
-/

/-- One row of `data/dados_meteorologicos.csv`: a sensor reading.
Columns as in `data_generator.generate_data`. -/
structure Reading where
  timestamp : Int
  id_estacao : String
  regiao : String
  temperatura : Rat
  umidade : Rat
  pressao : Rat
deriving DecidableEq

/-- The three sensor columns shared by all metric computations. -/
inductive Sensor where
  | temperatura
  | umidade
  | pressao
deriving DecidableEq

/-- The column name of a sensor, as used by the melt in `validar_corretude`. -/
def Sensor.nome : Sensor → String
  | .temperatura => "temperatura"
  | .umidade => "umidade"
  | .pressao => "pressao"

/-- The value of a sensor column in a reading. -/
def Sensor.valor : Sensor → Reading → Rat
  | .temperatura, r => r.temperatura
  | .umidade, r => r.umidade
  | .pressao, r => r.pressao

/-- Iteration order of the sensor columns, `["temperatura", "umidade", "pressao"]`
in every source file. -/
def sensores : List Sensor := [.temperatura, .umidade, .pressao]

/-- The fixed physical bounds `THRESHOLDS` shared by `process_local.py`,
`tasks.py`, `producer.py` and `process_spark.py`. -/
def THRESHOLDS : Sensor → Rat × Rat
  | .temperatura => (-10, 45)
  | .umidade => (0, 100)
  | .pressao => (940, 1060)

/-- `df[sensor].between(min_val, max_val)`: closed-interval membership. -/
def between (v lo hi : Rat) : Bool :=
  decide (lo ≤ v ∧ v ≤ hi)

/-- The fixed-bounds anomaly rule for one sensor of one reading:
`~df[sensor].between(min_val, max_val)` (`detectar_anomalias` in
`process_local.py` / `tasks.py` / `producer.py` / `process_spark.py`). -/
def sensor_anormal (s : Sensor) (r : Reading) : Bool :=
  !(between (s.valor r) (THRESHOLDS s).1 (THRESHOLDS s).2)

/-- The three `*_anormal` flag columns appended by `detectar_anomalias`. -/
structure Flags where
  temperatura_anormal : Bool
  umidade_anormal : Bool
  pressao_anormal : Bool
deriving DecidableEq

/-- Read one flag column. -/
def Flags.coluna : Flags → Sensor → Bool
  | f, .temperatura => f.temperatura_anormal
  | f, .umidade => f.umidade_anormal
  | f, .pressao => f.pressao_anormal

/-- `temperatura_anormal | umidade_anormal | pressao_anormal`. -/
def Flags.alguma (f : Flags) : Bool :=
  f.temperatura_anormal || f.umidade_anormal || f.pressao_anormal

/-- `detectar_anomalias` applied to one row: the row with its flag columns. -/
def detectar_anomalias (r : Reading) : Reading × Flags :=
  (r, { temperatura_anormal := sensor_anormal .temperatura r
        umidade_anormal := sensor_anormal .umidade r
        pressao_anormal := sensor_anormal .pressao r })

/-- Order used by `sort_values("timestamp")` on a flagged frame. -/
def ts_le (a b : Reading × Flags) : Prop :=
  a.1.timestamp ≤ b.1.timestamp

instance : DecidableRel ts_le := fun a b => by
  unfold ts_le; infer_instance

instance : IsTotal (Reading × Flags) ts_le :=
  ⟨fun a b => le_total a.1.timestamp b.1.timestamp⟩

instance : IsTrans (Reading × Flags) ts_le :=
  ⟨fun _ _ _ hab hbc => le_trans hab hbc⟩

/-- `df.sort_values("timestamp")` (stable sort by timestamp). -/
def sort_values_timestamp (l : List (Reading × Flags)) : List (Reading × Flags) :=
  l.insertionSort ts_le

/-- Mean of a list of rationals (`Series.mean`); division by zero only ever
reached on nonempty windows below. -/
def series_mean (xs : List Rat) : Rat :=
  xs.sum / xs.length

/-- The epoch-anchored 10-minute bucket of a timestamp, shared by
`pd.Grouper(key='timestamp', freq='10min')` and Spark
`window("timestamp", "10 minutes")`. -/
def window_id (t : Int) : Int :=
  t.fdiv 600

/-- The rows of the trailing 10-minute window ending at row `x`:
pandas `rolling("10min")` on a frame sorted by timestamp takes, at each row,
the current row together with every earlier row whose timestamp lies in the
left-open interval `(t - 600, t]`. -/
def janela_10min (prev : List (Reading × Flags)) (x : Reading × Flags) :
    List (Reading × Flags) :=
  (prev ++ [x]).filter fun q => decide (x.1.timestamp - 600 < q.1.timestamp)

/-- Number of sensors "hot" in a set of flagged rows:
`(rolling > 0).sum(axis=1)` at one row, i.e. how many flag columns have a
positive rolling sum over the window. -/
def sensores_quentes (win : List (Reading × Flags)) : Nat :=
  (if win.any fun q => q.2.temperatura_anormal then 1 else 0) +
  (if win.any fun q => q.2.umidade_anormal then 1 else 0) +
  (if win.any fun q => q.2.pressao_anormal then 1 else 0)

/-- The row-by-row loop of `worker_coocorrencia` / `calcular_periodos_coocorrencia`:
`grupo.rolling("10min").sum()`, then `((rolling > 0).sum(axis=1) > 1).sum()` —
one trailing-window test per ROW, counting rows. `prev` accumulates rows
already passed (the frame is processed in sorted order). -/
def rolling_cooc_rows : List (Reading × Flags) → List (Reading × Flags) → Nat
  | _, [] => 0
  | prev, x :: rest =>
    (if 1 < sensores_quentes (janela_10min prev x) then 1 else 0) +
      rolling_cooc_rows (prev ++ [x]) rest

/-- One row of the percentage metric output. -/
structure PercFrag where
  id_estacao : String
  sensor : String
  percentual_anomalias : Rat
deriving DecidableEq

/-- One row of the co-occurrence metric output. -/
structure CoocFrag where
  id_estacao : String
  periodos_multianomalias_10min : Nat
deriving DecidableEq

/-- One output row of the moving-average metric (timestamp plus the three
rolling means), as produced by `rolling(...).mean()`. -/
structure MediaRow where
  timestamp : Int
  temperatura : Rat
  umidade : Rat
  pressao : Rat
deriving DecidableEq

/-- The row-by-row loop of the time-based moving average
(`rolling("10min").mean()` over the three sensor columns of a frame sorted by
timestamp). -/
def rolling_media_rows : List (Reading × Flags) → List (Reading × Flags) →
    List MediaRow
  | _, [] => []
  | prev, x :: rest =>
    let win := janela_10min prev x
    { timestamp := x.1.timestamp
      temperatura := series_mean (win.map fun q => q.1.temperatura)
      umidade := series_mean (win.map fun q => q.1.umidade)
      pressao := series_mean (win.map fun q => q.1.pressao) } ::
      rolling_media_rows (prev ++ [x]) rest

/-- `worker_anomalias` (process_local.py): percentage of anomalous rows per
sensor for one station partition whose flag columns were precomputed by
`detectar_anomalias`.  `none` models the `IndexError` of
`estacao_df["id_estacao"].iloc[0]` on an empty frame. -/
def worker_anomalias (estacao_df : List (Reading × Flags)) :
    Option (List PercFrag) :=
  match estacao_df with
  | [] => none
  | r0 :: _ =>
    some (sensores.map fun s =>
      { id_estacao := r0.1.id_estacao
        sensor := s.nome
        percentual_anomalias :=
          100 * ((estacao_df.countP fun q => q.2.coluna s : Nat) : Rat) /
            (estacao_df.length : Rat) })

/-- `worker_coocorrencia` (process_local.py): sort the flagged partition by
timestamp, roll a 10-minute trailing window over the rows, and count the rows
at which more than one flag column has a positive rolling sum. -/
def worker_coocorrencia (estacao_df : List (Reading × Flags)) : Option CoocFrag :=
  let df := sort_values_timestamp estacao_df
  match df with
  | [] => none
  | r0 :: _ =>
    some { id_estacao := r0.1.id_estacao
           periodos_multianomalias_10min := rolling_cooc_rows [] df }

/-- `worker_media_movel` (process_local.py): sort the flagged region partition
by timestamp, read the region label from the first (pre-filter) row, drop every
row with any anomalous sensor, and roll a 10-minute trailing mean. -/
def worker_media_movel (regiao_df : List (Reading × Flags)) :
    Option (String × List MediaRow) :=
  let df := sort_values_timestamp regiao_df
  match df with
  | [] => none
  | r0 :: _ =>
    let clean := df.filter fun q => !q.2.alguma
    some (r0.1.regiao, rolling_media_rows [] clean)

/-- `calcular_percentual_anomalias` (tasks.py): same percentages, with the
fixed-bounds test `~df[sensor].between(*THRESHOLDS[sensor])` recomputed inline
on the raw partition. -/
def calcular_percentual_anomalias (df : List Reading) : Option (List PercFrag) :=
  match df with
  | [] => none
  | r0 :: _ =>
    some (sensores.map fun s =>
      { id_estacao := r0.id_estacao
        sensor := s.nome
        percentual_anomalias :=
          100 * ((df.countP fun r => sensor_anormal s r : Nat) : Rat) /
            (df.length : Rat) })

/-- `calcular_periodos_coocorrencia` (tasks.py): flag with `detectar_anomalias`,
sort by timestamp, and count rows whose trailing 10-minute window has more than
one hot flag column — the same row-wise rolling loop as `worker_coocorrencia`. -/
def calcular_periodos_coocorrencia (df0 : List Reading) : Option CoocFrag :=
  let df := sort_values_timestamp (df0.map detectar_anomalias)
  match df with
  | [] => none
  | r0 :: _ =>
    some { id_estacao := r0.1.id_estacao
           periodos_multianomalias_10min := rolling_cooc_rows [] df }

/-- `calcular_media_movel` (tasks.py): flag, sort by timestamp, drop rows with
any anomalous sensor, roll the 10-minute trailing mean; the region label is read
with `df["regiao"].iloc[0]` from the FILTERED frame, so an all-anomalous
partition raises `IndexError` (modelled by `none`). -/
def calcular_media_movel (regiao_df : List Reading) :
    Option (String × List MediaRow) :=
  let df := sort_values_timestamp (regiao_df.map detectar_anomalias)
  let clean := df.filter fun q => !q.2.alguma
  match clean with
  | [] => none
  | r0 :: _ => some (r0.1.regiao, rolling_media_rows [] clean)

/-- One output row of the Spark moving average: a (window, region) group with
the three `avg` aggregates (`process_spark.py`, metric 2). -/
structure SparkMediaRow where
  window_id : Int
  regiao : String
  media_temperatura : Rat
  media_umidade : Rat
  media_pressao : Rat
deriving DecidableEq

/-- Metric 2 of `process_spark.py`: filter out rows with any fixed-bounds
anomaly, then `groupBy(window("timestamp", "10 minutes"), "regiao")` with
`avg` of each sensor — a per-tumbling-window group mean, one output row per
(window, region) group rather than one per clean reading. -/
def spark_media_movel (df : List Reading) : List SparkMediaRow :=
  let clean := df.filter fun r =>
    !(sensor_anormal .temperatura r || sensor_anormal .umidade r ||
      sensor_anormal .pressao r)
  let keys := (clean.map fun r => (window_id r.timestamp, r.regiao)).dedup
  keys.map fun k =>
    let g := clean.filter fun r =>
      decide (window_id r.timestamp = k.1) && decide (r.regiao = k.2)
    { window_id := k.1
      regiao := k.2
      media_temperatura := series_mean (g.map fun r => r.temperatura)
      media_umidade := series_mean (g.map fun r => r.umidade)
      media_pressao := series_mean (g.map fun r => r.pressao) }

/-- The validation report of `validar_corretude`. -/
structure Corretude where
  verdadeiros_positivos : Nat
deriving DecidableEq

/-- The outcome of `result.get(timeout=600)` in `producer.py`: the wait either
returns (with a wall-clock duration), raises `TimeoutError`, or raises some
other exception. -/
inductive WaitOutcome where
  | success (elapsed_ms : Rat)
  | timeout
  | failure (msg : String)
deriving DecidableEq

/-- What the dispatch epilogue of `producer.py` produces: the result record
written to `data/tempo_execucao.json` plus whether `revoke(terminate=True)` ran
and whether an exception escaped the dispatcher. -/
structure ProducerOutcome where
  tempo : Rat
  corretude : Option Corretude
  revoked : Bool
  raised : Bool
deriving DecidableEq

/-- The epilogue of `producer.py` (lines 68-97): `duration_ms` starts at the
sentinel `-1.0`; a successful `get` overwrites it with the measured duration;
`TimeoutError` and any other exception are caught, `revoke(terminate=True)` is
called, and the sentinel is kept; in every case the result record (with the
`corretude` validation field) is written and nothing is re-raised. -/
def producer_finalize (w : WaitOutcome) (corretude_results : Option Corretude) :
    ProducerOutcome :=
  match w with
  | .success elapsed =>
    { tempo := elapsed, corretude := corretude_results
      revoked := false, raised := false }
  | .timeout =>
    { tempo := -1, corretude := corretude_results
      revoked := true, raised := false }
  | .failure _ =>
    { tempo := -1, corretude := corretude_results
      revoked := true, raised := false }

example : (worker_anomalias [detectar_anomalias
    { timestamp := 0, id_estacao := "STA-001", regiao := "Sul",
      temperatura := 20, umidade := 50, pressao := 1000 }]).isSome = true := by
  decide

example :
    calcular_periodos_coocorrencia
      [{ timestamp := 0, id_estacao := "STA-001", regiao := "Sul",
         temperatura := 100, umidade := 150, pressao := 1000 }] =
    some { id_estacao := "STA-001", periodos_multianomalias_10min := 1 } := by
  decide

/-- Sample variance of a series with pandas' default `ddof=1`; `none` models
the `NaN` that `Series.std()` returns for fewer than two values. -/
def sample_var (xs : List Rat) : Option Rat :=
  if xs.length ≤ 1 then none
  else some ((xs.map fun x => (x - series_mean xs) ^ 2).sum /
    ((xs.length - 1 : Nat) : Rat))

/-- Pointwise statistical anomaly rule of `is_anomaly` (metrics.py lines 6-15,
worker.py lines 16-22): a value is anomalous when it lies outside
`[mean - 3*std, mean + 3*std]`, which over the reals is `(x - mean)^2 > 9*var`.
When `std == 0` every value is classified non-anomalous.  When `std` is `NaN`
(a series with fewer than two values), `std == 0` is false and
`series.between(NaN, NaN)` is elementwise false, so `~between` classifies every
value as anomalous — hence the `none ↦ true` branch. -/
def stat_flag (xs : List Rat) (x : Rat) : Bool :=
  match sample_var xs with
  | none => true
  | some v => if v = 0 then false else decide (9 * v < (x - series_mean xs) ^ 2)

/-- `is_anomaly` (metrics.py / worker.py): the boolean series aligned with the
input series.  `Series.mean`, `Series.std` and the `between` bounds depend only
on the whole series, so the classification is a pointwise map. -/
def is_anomaly (xs : List Rat) : List Bool :=
  xs.map (stat_flag xs)

/-- The three per-sensor statistical flags of one row of the full frame, as
computed by `df.groupby('id_estacao')[...].transform(is_anomaly)` in
`calculate_metrics_sequentially`: each sensor series is taken from the row's
own station partition. -/
def ref_flags (df : List Reading) (r : Reading) : Flags :=
  let g := df.filter fun q => decide (q.id_estacao = r.id_estacao)
  { temperatura_anormal := stat_flag (g.map (Sensor.valor .temperatura)) r.temperatura
    umidade_anormal := stat_flag (g.map (Sensor.valor .umidade)) r.umidade
    pressao_anormal := stat_flag (g.map (Sensor.valor .pressao)) r.pressao }

/-- The full frame with the reference (statistical) flag columns attached,
as in `df.join(anomaly_mask_df...)`. -/
def ref_flagged (df : List Reading) : List (Reading × Flags) :=
  df.map fun r => (r, ref_flags df r)

/-- Metric 1 of `calculate_metrics_sequentially`:
`anomaly_mask_df.groupby(df['id_estacao']).mean() * 100` for one station and
one sensor. -/
def percentual_anomalias (df : List Reading) (estacao : String) (s : Sensor) :
    Rat :=
  let g := df.filter fun q => decide (q.id_estacao = estacao)
  100 * ((g.countP fun r => (ref_flags df r).coluna s : Nat) : Rat) /
    (g.length : Rat)

/-- Lexicographic order of `sort_values(by=['regiao', 'timestamp'])`. -/
def regiao_ts_le (a b : Reading) : Prop :=
  a.regiao < b.regiao ∨ (a.regiao = b.regiao ∧ a.timestamp ≤ b.timestamp)

instance : DecidableRel regiao_ts_le := fun a b => by
  unfold regiao_ts_le; infer_instance

instance : IsTotal Reading regiao_ts_le := by
  constructor
  intro a b
  rcases lt_trichotomy a.regiao b.regiao with h | h | h
  · exact Or.inl (Or.inl h)
  · rcases le_total a.timestamp b.timestamp with h2 | h2
    · exact Or.inl (Or.inr ⟨h, h2⟩)
    · exact Or.inr (Or.inr ⟨h.symm, h2⟩)
  · exact Or.inr (Or.inl h)

instance : IsTrans Reading regiao_ts_le := by
  constructor
  intro a b c hab hbc
  rcases hab with h1 | ⟨h1, h1t⟩
  · rcases hbc with h2 | ⟨h2, _⟩
    · exact Or.inl (h1.trans h2)
    · exact Or.inl (h2 ▸ h1)
  · rcases hbc with h2 | ⟨h2, h2t⟩
    · exact Or.inl (h1 ▸ h2)
    · exact Or.inr ⟨h1.trans h2, h1t.trans h2t⟩

/-- One output row of the reference moving average: the clean reading with the
three `*_media_movel` columns joined back (`media_movel_df` in metrics.py). -/
structure RefMediaRow where
  row : Reading
  temperatura_media_movel : Rat
  umidade_media_movel : Rat
  pressao_media_movel : Rat
deriving DecidableEq

/-- The row-by-row loop of `rolling(window=10, min_periods=1).mean()`: a
ROW-COUNT trailing window of at most 10 rows (the current row and up to 9
predecessors in its group). -/
def rolling10_rows : List Reading → List Reading → List RefMediaRow
  | _, [] => []
  | prev, x :: rest =>
    let win := (prev ++ [x]).reverse.take 10
    { row := x
      temperatura_media_movel := series_mean (win.map fun r => r.temperatura)
      umidade_media_movel := series_mean (win.map fun r => r.umidade)
      pressao_media_movel := series_mean (win.map fun r => r.pressao) } ::
      rolling10_rows (prev ++ [x]) rest

/-- Metric 2 of `calculate_metrics_sequentially`: drop every row with any
anomalous sensor, sort by (regiao, timestamp), and take the per-region
rolling mean over a window of 10 ROWS with `min_periods=1`.  Region groups are
contiguous after the sort, so concatenating the per-region outputs in sorted
region order reproduces the joined frame's row order. -/
def media_movel_regiao (df : List Reading) : List RefMediaRow :=
  let clean := df.filter fun r => !(ref_flags df r).alguma
  let s := clean.insertionSort regiao_ts_le
  (((s.map fun r => r.regiao).dedup).map fun reg =>
    rolling10_rows [] (s.filter fun r => decide (r.regiao = reg))).flatten

/-- How many of the three sensors have at least one anomalous reading of
`rows` inside the 10-minute bucket `w` (`.any()` per flag column followed by
`.sum(axis=1)` for that bucket). -/
def quentes_na_janela (rows : List (Reading × Flags)) (w : Int) : Nat :=
  (if rows.any fun q =>
      decide (window_id q.1.timestamp = w) && q.2.temperatura_anormal
    then 1 else 0) +
  (if rows.any fun q =>
      decide (window_id q.1.timestamp = w) && q.2.umidade_anormal
    then 1 else 0) +
  (if rows.any fun q =>
      decide (window_id q.1.timestamp = w) && q.2.pressao_anormal
    then 1 else 0)

/-- Metric 3 of `calculate_metrics_sequentially` for one station: group the
station's rows into fixed 10-minute buckets (`pd.Grouper(freq='10min')`), OR
each flag column within a bucket, and count the buckets where more than one
sensor is hot.  Stations with no such bucket simply yield 0 (the main script
reads the counts with `.get(station, 0)`). -/
def periodos_concorrentes (df : List Reading) (estacao : String) : Nat :=
  let g := (ref_flagged df).filter fun q => decide (q.1.id_estacao = estacao)
  ((g.map fun q => window_id q.1.timestamp).dedup).countP fun w =>
    decide (1 < quentes_na_janela g w)

/-- Modelled from the spec: the brute-force check of claim C2 — the number of
10-minute buckets of a flagged partition that contain anomalous readings of at
least two distinct sensors.  This is the windowed OR-then-sum the spec
prescribes for the co-occurrence metric, evaluated once per fixed window. -/
def spec_janelas_com_coocorrencia (rows : List (Reading × Flags)) : Nat :=
  ((rows.map fun q => window_id q.1.timestamp).dedup).countP fun w =>
    decide (1 < quentes_na_janela rows w)

/-- `process_station` (worker.py lines 24-47): filter the module-level frame to
one station.  An empty selection returns `None` (`.ok none`) before any metric
is computed.  On a non-empty selection the code builds
`anomaly_mask = station_df[["temperatura", "umidade", "pressao"]].apply(is_anomaly)`
and its percentages, then calls
`anomaly_mask.groupby(pd.Grouper(key="timestamp", freq="10min"))`; the mask
frame holds only the three boolean sensor columns and no `timestamp` column,
so this grouping raises `KeyError`, modelled as `.error`.  The `result = ...`
dictionary is therefore never reached, so the success payload carries no data
(`Option Unit`). -/
def process_station (all_data : List Reading) (station_id : String) :
    Except String (Option Unit) :=
  let station_df := all_data.filter fun r => decide (r.id_estacao = station_id)
  match station_df with
  | [] => .ok none
  | _ :: _ => .error "KeyError: timestamp"

/-- One row of `data/anomalias_reais.csv`, the ground truth written by the
data generator. -/
structure GroundTruth where
  timestamp : Int
  id_estacao : String
  sensor_anomalo : String
  valor_anomalo : Rat
deriving DecidableEq

/-- The join key `(timestamp, id_estacao, sensor_anomalo)`. -/
def gt_key (g : GroundTruth) : Int × String × String :=
  (g.timestamp, g.id_estacao, g.sensor_anomalo)

/-- The melt of `validar_corretude`: one detected-anomaly event per flagged
(row, sensor) pair, stacked per sensor column (the `_anormal` suffix stripped),
keyed by `(timestamp, id_estacao, sensor_anomalo)`. -/
def melt_detectadas (df : List (Reading × Flags)) : List (Int × String × String) :=
  (sensores.map fun s =>
    ((df.filter fun q => q.2.coluna s).map fun q =>
      (q.1.timestamp, q.1.id_estacao, s.nome))).flatten

/-- `validar_corretude` (process_local.py lines 21-31, identical in
producer.py and process_spark.py): `None` when the ground-truth file is absent;
otherwise the count of rows of the outer merge on
`(timestamp, id_estacao, sensor_anomalo)` whose `_merge` indicator is `both`,
i.e. the number of (ground-truth row, detected event) pairs with equal keys. -/
def validar_corretude (gabarito : Option (List GroundTruth))
    (df_processado : List (Reading × Flags)) : Option Corretude :=
  match gabarito with
  | none => none
  | some gab =>
    let detectadas := melt_detectadas df_processado
    some { verdadeiros_positivos :=
      (gab.map fun g => detectadas.countP fun d => decide (d = gt_key g)).sum }

/-- The station partitions of `df.groupby("id_estacao")` in submission order
(process_local.py builds `grupos = [g for _, g in df.groupby(...)]`). -/
def grupos_por_estacao (df : List (Reading × Flags)) :
    List (List (Reading × Flags)) :=
  ((df.map fun q => q.1.id_estacao).dedup).map fun e =>
    df.filter fun q => decide (q.1.id_estacao = e)

/-- The region partitions of `df.groupby("regiao")`. -/
def grupos_por_regiao (df : List (Reading × Flags)) :
    List (List (Reading × Flags)) :=
  ((df.map fun q => q.1.regiao).dedup).map fun e =>
    df.filter fun q => decide (q.1.regiao = e)

/-- `processa_anomalias` (process_local.py): fan the station partitions out to
`worker_anomalias` and collect every fragment appended to the shared result
list.  The shared list's real order depends on scheduling; we collect in
submission order, which no claim below depends on.  A worker that dies (an
exception in any unit) leaves the run with no completion signal, modelled by
`none` for the whole run. -/
def processa_anomalias (df : List (Reading × Flags)) : Option (List PercFrag) :=
  ((grupos_por_estacao df).mapM worker_anomalias).map List.flatten

/-- `processa_coocorrencias` (process_local.py): one `CoocFrag` per station
partition. -/
def processa_coocorrencias (df : List (Reading × Flags)) :
    Option (List CoocFrag) :=
  (grupos_por_estacao df).mapM worker_coocorrencia

/-- `processa_medias_moveis` (process_local.py): run `worker_media_movel` on
each region partition and return `pd.concat(list(resultados))`.  Every row of a
worker's frame carries the region label (`rolling["regiao"] = regiao`), so the
concatenation is the flattened list of region-tagged rows.  `pd.concat` applied
to an empty list — a run with zero region partitions — raises
`ValueError: No objects to concatenate`, modelled by `none`. -/
def processa_medias_moveis (df : List (Reading × Flags)) :
    Option (List (String × MediaRow)) :=
  match (grupos_por_regiao df).mapM worker_media_movel with
  | none => none
  | some [] => none
  | some (p :: ps) =>
    some (((p :: ps).map fun q => q.2.map fun m => (q.1, m)).flatten)

/-- A JSON value as loaded by `json.load` in compare_results.py.  Numbers keep
a flag recording whether they parsed as a Python `float` (JSON `1.0`) or `int`
(JSON `1`): `compare_values` branches on `isinstance(..., float)`.  Objects are
association lists in insertion order (Python dicts preserve it). -/
inductive JVal where
  | num (q : Rat) (isFloat : Bool)
  | str (s : String)
  | jbool (b : Bool)
  | jnull
  | obj (entries : List (String × JVal))
  | arr (items : List JVal)

/-- `d[key]` on an association list (first match, as in a Python dict, whose
keys are unique). -/
def lookupJ (k : String) : List (String × JVal) → Option JVal
  | [] => none
  | (k2, v) :: rest => if k = k2 then some v else lookupJ k rest

theorem lookupJ_sizeOf {k : String} :
    ∀ {d : List (String × JVal)} {v : JVal},
      lookupJ k d = some v → sizeOf v < sizeOf d := by
  intro d
  induction d with
  | nil => intro v h; simp [lookupJ] at h
  | cons hd tl ih =>
    intro v h
    obtain ⟨k2, w⟩ := hd
    simp only [lookupJ] at h
    split at h
    · cases h
      simp only [List.cons.sizeOf_spec, Prod.mk.sizeOf_spec]
      omega
    · have := ih h
      simp only [List.cons.sizeOf_spec, Prod.mk.sizeOf_spec]
      omega

theorem lookupJ_sizeOf_le (k : String) :
    ∀ d : List (String × JVal), sizeOf (lookupJ k d) ≤ sizeOf d := by
  intro d
  induction d with
  | nil =>
    simp only [lookupJ, Option.none.sizeOf_spec, List.nil.sizeOf_spec]
    omega
  | cons b bs ih =>
    obtain ⟨k2, w⟩ := b
    simp only [lookupJ]
    split
    · simp only [Option.some.sizeOf_spec, List.cons.sizeOf_spec,
        Prod.mk.sizeOf_spec]
      omega
    · have h2 : sizeOf ((k2, w) :: bs) = 1 + (1 + sizeOf k2 + sizeOf w) + sizeOf bs := by
        simp only [List.cons.sizeOf_spec, Prod.mk.sizeOf_spec]
      omega

/-- Python `==` between two JSON values: numbers compare by value regardless of
int/float kind, `True == 1` and `False == 0` (bool is an int subtype), strings
and `None` compare exactly, dicts compare by equal key sets with equal values,
lists elementwise, and any other pair of types is unequal. -/
def pyEq : JVal → JVal → Bool
  | .num a _, .num b _ => a == b
  | .num a _, .jbool b => a == (if b then 1 else 0)
  | .jbool a, .num b _ => (if a then (1 : Rat) else 0) == b
  | .jbool a, .jbool b => a == b
  | .str a, .str b => a == b
  | .jnull, .jnull => true
  | .obj d1, .obj d2 =>
    d1.length == d2.length &&
      d1.attach.all fun kv =>
        match lookupJ kv.1.1 d2 with
        | some w => pyEq kv.1.2 w
        | none => false
  | .arr a, .arr b =>
    a.length == b.length &&
      (a.zip b).attach.all fun p => pyEq p.1.1 p.1.2
  | _, _ => false
termination_by v1 _ => sizeOf v1
decreasing_by
  · obtain ⟨⟨k1, w1⟩, hmem⟩ := kv
    have h1 := List.sizeOf_lt_of_mem hmem
    simp only [Prod.mk.sizeOf_spec] at h1
    simp only [JVal.obj.sizeOf_spec]
    omega
  · obtain ⟨⟨x, y⟩, hmem⟩ := p
    have h1 := (List.of_mem_zip hmem).1
    have h2 := List.sizeOf_lt_of_mem h1
    simp only [JVal.arr.sizeOf_spec]
    omega

/-- `math.isclose(v1, v2, rel_tol=1e-9, abs_tol=1e-9)`:
`abs(v1-v2) <= max(rel_tol * max(abs(v1), abs(v2)), abs_tol)`. -/
def isclose (a b : Rat) : Bool :=
  decide (|a - b| ≤ max ((1 / 1000000000) * max |a| |b|) (1 / 1000000000))

/-- `compare_values` (compare_results.py lines 5-14): when both values are
Python floats they are compared with `math.isclose`; any other pair is compared
with Python `==`.  A mismatch prints the offending path; we return the list of
printed paths alongside the verdict. -/
def compare_values (v1 v2 : JVal) (path : String) : Bool × List String :=
  match v1, v2 with
  | .num a true, .num b true =>
    if !isclose a b then (false, [path]) else (true, [])
  | _, _ => if !pyEq v1 v2 then (false, [path]) else (true, [])

/-- The `enumerate(zip(val1, val2))` loop of `compare_dicts`: list elements are
compared pairwise with `compare_values` under paths `path[i]`. -/
def compare_list (l1 l2 : List JVal) (path : String) (i : Nat) :
    Bool × List String :=
  match l1, l2 with
  | [], _ => (true, [])
  | _, [] => (true, [])
  | x :: xs, y :: ys =>
    let head := compare_values x y (path ++ "[" ++ toString i ++ "]")
    let tail := compare_list xs ys path (i + 1)
    (head.1 && tail.1, head.2 ++ tail.2)

/-- `set(d1.keys()) == set(d2.keys())`. -/
def keySetEq (ks1 ks2 : List String) : Bool :=
  (ks1.all fun k => ks2.contains k) && (ks2.all fun k => ks1.contains k)

mutual

/-- `compare_dicts` (compare_results.py lines 16-56): mismatched key sets are
reported (with the enclosing path) and end the call; otherwise every key of
`sorted(keys1)` is visited, `tempo_execucao_ms` is skipped, dict values recurse,
list values are length-checked then compared elementwise, and every other pair
goes to `compare_values`; verdicts are AND-accumulated over all keys (no early
exit) and reported paths accumulate in visit order. -/
def compare_dicts (d1 d2 : List (String × JVal)) (path : String) :
    Bool × List String :=
  let keys1 := d1.map Prod.fst
  let keys2 := d2.map Prod.fst
  if keySetEq keys1 keys2 then
    compare_keys (keys1.insertionSort (· ≤ ·)) d1 d2 path
  else (false, [path])
termination_by (sizeOf d1, 2, 0)
decreasing_by
  apply Prod.Lex.right
  apply Prod.Lex.left
  omega

/-- The `for key in sorted(list(keys1))` loop of `compare_dicts`: skip
`tempo_execucao_ms`, compare each remaining key's pair of values, AND the
verdicts and concatenate the reports. -/
def compare_keys (ks : List String) (d1 d2 : List (String × JVal))
    (path : String) : Bool × List String :=
  match ks with
  | [] => (true, [])
  | k :: rest =>
    let tail := compare_keys rest d1 d2 path
    if k = "tempo_execucao_ms" then tail
    else
      let head := compare_sub (lookupJ k d1) (lookupJ k d2)
        (if path = "" then k else path ++ "." ++ k)
      (head.1 && tail.1, head.2 ++ tail.2)
termination_by (sizeOf d1, 1, ks.length)
decreasing_by
  · apply Prod.Lex.right
    apply Prod.Lex.right
    simp [List.length_cons]
  · rcases Nat.lt_or_ge (sizeOf (lookupJ k d1)) (sizeOf d1) with hlt | hge
    · exact Prod.Lex.left _ _ hlt
    · have hle := lookupJ_sizeOf_le k d1
      have heq : sizeOf (lookupJ k d1) = sizeOf d1 := le_antisymm hle hge
      rw [heq]
      exact Prod.Lex.right _ (Prod.Lex.left _ _ (by omega))

/-- The dispatch of `compare_dicts` on one key's pair of looked-up values (the
body of the loop after the skip): dict values recurse, list values are
length-checked and compared elementwise, anything else goes to
`compare_values`.  The `none` arms are unreachable when both dicts contain the
key (in Python a missing key would raise `KeyError`, but the key-set check has
already ensured membership). -/
def compare_sub (v1 v2 : Option JVal) (new_path : String) :
    Bool × List String :=
  match v1, v2 with
  | some (.obj e1), some (.obj e2) => compare_dicts e1 e2 new_path
  | some (.arr l1), some (.arr l2) =>
    if l1.length ≠ l2.length then (false, [new_path])
    else compare_list l1 l2 new_path 0
  | some w1, some w2 => compare_values w1 w2 new_path
  | _, _ => (true, [])
termination_by (sizeOf v1, 0, 0)
decreasing_by
  apply Prod.Lex.left
  simp only [Option.some.sizeOf_spec, JVal.obj.sizeOf_spec]
  omega

end

/-- The comparison of one key of `compare_dicts`: look the key up on both
sides and dispatch. -/
def compare_one (d1 d2 : List (String × JVal)) (k new_path : String) :
    Bool × List String :=
  compare_sub (lookupJ k d1) (lookupJ k d2) new_path

/-- Python `d[key] = value` on our association-list dicts: replace the value at
the first occurrence of the key, or append the pair when the key is absent. -/
def setKey (d : List (String × JVal)) (k : String) (v : JVal) :
    List (String × JVal) :=
  match d with
  | [] => [(k, v)]
  | (k2, w) :: rest =>
    if k = k2 then (k2, v) :: rest else (k2, w) :: setKey rest k v

/-- Leaf-level agreement of the comparator: a pair of Python floats agrees when
it is within the `math.isclose` tolerance; every other pair of leaves agrees
when it is Python-equal. -/
def leafMatch (v1 v2 : JVal) : Bool :=
  match v1, v2 with
  | .num a true, .num b true => isclose a b
  | _, _ => pyEq v1 v2

mutual

/-- Declarative characterization of comparator equality, against which
`compare_dicts` is proved correct: the key sets agree at every object level
reached through object nesting; at every key other than the skipped
`tempo_execucao_ms`, object values recurse, list values have equal lengths and
elementwise `leafMatch`, and any other pair of values satisfies `leafMatch`. -/
def structMatch (d1 d2 : List (String × JVal)) : Bool :=
  keySetEq (d1.map Prod.fst) (d2.map Prod.fst) &&
    (d1.map Prod.fst).all fun k =>
      (k == "tempo_execucao_ms") || struct_sub (lookupJ k d1) (lookupJ k d2)
termination_by (sizeOf d1, 1)
decreasing_by
  rcases Nat.lt_or_ge (sizeOf (lookupJ k d1)) (sizeOf d1) with hlt | hge
  · exact Prod.Lex.left _ _ hlt
  · have hle := lookupJ_sizeOf_le k d1
    have heq : sizeOf (lookupJ k d1) = sizeOf d1 := le_antisymm hle hge
    rw [heq]
    exact Prod.Lex.right _ (by omega)

/-- The declarative per-key condition matching `compare_sub`. -/
def struct_sub (v1 v2 : Option JVal) : Bool :=
  match v1, v2 with
  | some (.obj e1), some (.obj e2) => structMatch e1 e2
  | some (.arr l1), some (.arr l2) =>
    l1.length == l2.length &&
      ((l1.zip l2).all fun p => leafMatch p.1 p.2)
  | some w1, some w2 => leafMatch w1 w2
  | _, _ => false
termination_by (sizeOf v1, 0)
decreasing_by
  apply Prod.Lex.left
  simp only [Option.some.sizeOf_spec, JVal.obj.sizeOf_spec]
  omega

end

/-- The declarative per-key condition of `structMatch`, by key. -/
def struct_one (d1 d2 : List (String × JVal)) (k : String) : Bool :=
  struct_sub (lookupJ k d1) (lookupJ k d2)

mutual

/-- Modelled from the spec: the literal reading of claim C6 — two result
structures "are equal exactly when key sets match at every composite level and
every numeric leaf pair differs by at most 1e-9 in relative and absolute
terms"; it constrains nothing about non-numeric leaves. -/
def claimC6Match (d1 d2 : List (String × JVal)) : Bool :=
  keySetEq (d1.map Prod.fst) (d2.map Prod.fst) &&
    (d1.map Prod.fst).all fun k => claimC6_sub (lookupJ k d1) (lookupJ k d2)
termination_by (sizeOf d1, 1)
decreasing_by
  rcases Nat.lt_or_ge (sizeOf (lookupJ k d1)) (sizeOf d1) with hlt | hge
  · exact Prod.Lex.left _ _ hlt
  · have hle := lookupJ_sizeOf_le k d1
    have heq : sizeOf (lookupJ k d1) = sizeOf d1 := le_antisymm hle hge
    rw [heq]
    exact Prod.Lex.right _ (by omega)

/-- The per-key condition of the literal claim C6 reading. -/
def claimC6_sub (v1 v2 : Option JVal) : Bool :=
  match v1, v2 with
  | some (.obj e1), some (.obj e2) => claimC6Match e1 e2
  | some (.num a _), some (.num b _) => isclose a b
  | _, _ => true
termination_by (sizeOf v1, 0)
decreasing_by
  apply Prod.Lex.left
  simp only [Option.some.sizeOf_spec, JVal.obj.sizeOf_spec]
  omega

end

/-- An in-bounds reading at the epoch with temperature 10. -/
def leitura_10 : Reading :=
  { timestamp := 0, id_estacao := "STA-001", regiao := "Sul",
    temperatura := 10, umidade := 50, pressao := 1000 }

/-- An in-bounds reading 5 minutes later with temperature 20. -/
def leitura_20 : Reading :=
  { timestamp := 300, id_estacao := "STA-001", regiao := "Sul",
    temperatura := 20, umidade := 50, pressao := 1000 }

/-- A reading whose temperature is out of bounds. -/
def leitura_q1 : Reading :=
  { timestamp := 0, id_estacao := "STA-001", regiao := "Sul",
    temperatura := 100, umidade := 50, pressao := 1000 }

/-- A reading one minute later whose humidity is out of bounds. -/
def leitura_q2 : Reading :=
  { timestamp := 60, id_estacao := "STA-001", regiao := "Sul",
    temperatura := 20, umidade := 150, pressao := 1000 }

/-- An in-bounds reading two minutes after the epoch. -/
def leitura_q3 : Reading :=
  { timestamp := 120, id_estacao := "STA-001", regiao := "Sul",
    temperatura := 20, umidade := 50, pressao := 1000 }

/-- A three-reading partition, all inside one 10-minute bucket, with exactly
two distinct anomalous sensors (temperature at 0s, humidity at 60s). -/
def particao_q : List Reading := [leitura_q1, leitura_q2, leitura_q3]

/-- C1: the claim says any two backends produce equal MetricFragment sets up to
floating-point tolerance.  On two in-bounds readings 5 minutes apart, the local
pool (`worker_media_movel`) and the queue task (`calcular_media_movel`) each
emit one trailing-mean fragment per clean reading — two fragments with
temperature means 10 and 15 — while the dataframe engine (`spark_media_movel`)
emits a single per-10-minute-window group average with temperature mean 15.
One fragment set has two members, the other one, so no numeric tolerance can
identify them: the backends diverge on the moving-average metric. -/
theorem backends_media_movel_divergem :
    worker_media_movel ([leitura_10, leitura_20].map detectar_anomalias) =
      some ("Sul",
        [{ timestamp := 0, temperatura := 10, umidade := 50, pressao := 1000 },
         { timestamp := 300, temperatura := 15, umidade := 50, pressao := 1000 }]) ∧
    calcular_media_movel [leitura_10, leitura_20] =
      some ("Sul",
        [{ timestamp := 0, temperatura := 10, umidade := 50, pressao := 1000 },
         { timestamp := 300, temperatura := 15, umidade := 50, pressao := 1000 }]) ∧
    spark_media_movel [leitura_10, leitura_20] =
      [{ window_id := 0, regiao := "Sul", media_temperatura := 15,
         media_umidade := 50, media_pressao := 1000 }] := by
  have hf0 : Int.fdiv 0 600 = 0 := by decide
  have hf3 : Int.fdiv 300 600 = 0 := by decide
  refine ⟨?_, ?_, ?_⟩
  · norm_num [worker_media_movel, sort_values_timestamp, List.insertionSort,
      List.orderedInsert, ts_le, detectar_anomalias, sensor_anormal, between,
      Sensor.valor, THRESHOLDS, Flags.alguma, rolling_media_rows, janela_10min,
      series_mean, leitura_10, leitura_20]
  · norm_num [calcular_media_movel, sort_values_timestamp, List.insertionSort,
      List.orderedInsert, ts_le, detectar_anomalias, sensor_anormal, between,
      Sensor.valor, THRESHOLDS, Flags.alguma, rolling_media_rows, janela_10min,
      series_mean, leitura_10, leitura_20]
  · norm_num [spark_media_movel, detectar_anomalias, sensor_anormal, between,
      Sensor.valor, THRESHOLDS, window_id, hf0, hf3, List.dedup, List.pwFilter,
      series_mean, leitura_10, leitura_20]

/-- C2: the reference engine does evaluate co-occurrence once per fixed
10-minute bucket — `periodos_concorrentes` coincides definitionally with the
brute-force windowed OR-then-sum `spec_janelas_com_coocorrencia` — but the
local-pool worker (`worker_coocorrencia`) and the queue task
(`calcular_periodos_coocorrencia`) instead test a trailing 10-minute window
once per ROW: on `particao_q` (one fixed window containing two distinct
anomalous sensors) the windowed count is 1 while both row-wise backends
report 2. -/
theorem coocorrencia_por_linha_diverge :
    (∀ (df : List Reading) (e : String),
      periodos_concorrentes df e =
        spec_janelas_com_coocorrencia
          ((ref_flagged df).filter fun q => decide (q.1.id_estacao = e))) ∧
    spec_janelas_com_coocorrencia (particao_q.map detectar_anomalias) = 1 ∧
    worker_coocorrencia (particao_q.map detectar_anomalias) =
      some { id_estacao := "STA-001", periodos_multianomalias_10min := 2 } ∧
    calcular_periodos_coocorrencia particao_q =
      some { id_estacao := "STA-001", periodos_multianomalias_10min := 2 } := by
  refine ⟨fun df e => rfl, by decide, by decide, by decide⟩

/-- C3: when the distributed-queue dispatcher's bounded wait expires
(`TimeoutError` from `result.get(timeout=600)`), the epilogue revokes the
outstanding units (`revoke(terminate=True)`), keeps the sentinel `-1` as the
elapsed time, still emits the run's result record with the validation field,
and propagates no exception to the caller. -/
theorem producer_timeout_emite_sentinela (corr : Option Corretude) :
    producer_finalize WaitOutcome.timeout corr =
      { tempo := -1, corretude := corr, revoked := true, raised := false } :=
  rfl

/-- Witness for C3 at a concrete validation report. -/
theorem producer_timeout_emite_sentinela_witness :
    producer_finalize WaitOutcome.timeout (some { verdadeiros_positivos := 3 }) =
      { tempo := -1, corretude := some { verdadeiros_positivos := 3 },
        revoked := true, raised := false } :=
  producer_timeout_emite_sentinela (some { verdadeiros_positivos := 3 })

/-- C4: under the statistical rule, a partition series whose (defined) sample
standard deviation is zero classifies every reading as non-anomalous — the
`std == 0` guard returns an all-false series, with no division by zero. -/
theorem desvio_zero_sem_anomalias (xs : List Rat) (h : sample_var xs = some 0) :
    is_anomaly xs = List.replicate xs.length false := by
  have hx : ∀ x, stat_flag xs x = false := by
    intro x
    simp [stat_flag, h]
  simp only [is_anomaly]
  rw [funext hx]
  simp [List.map_const']

/-- Witness for C4 at the constant series [5, 5] (variance defined and zero). -/
theorem desvio_zero_sem_anomalias_witness :
    is_anomaly [5, 5] = List.replicate ([5, 5] : List Rat).length false :=
  desvio_zero_sem_anomalias [5, 5] (by norm_num [sample_var, series_mean])

/-- A single in-bounds reading. -/
def leitura_unica : Reading :=
  { timestamp := 0, id_estacao := "STA-001", regiao := "Sul",
    temperatura := 20, umidade := 50, pressao := 1000 }

/-- C7 counterexample: on a partition with exactly one reading, the reference
engine's statistical rule flags the reading anomalous on every sensor (the
sample std of one value is `NaN`, which defeats the `std == 0` guard and makes
`between` false), so the moving-average series is empty — not the single
reading's value — and the co-occurrence count is 1, not 0. -/
theorem leitura_unica_contra :
    media_movel_regiao [leitura_unica] = [] ∧
    periodos_concorrentes [leitura_unica] "STA-001" = 1 := by
  refine ⟨by decide, by decide⟩

/-- C8 counterexample: a worker applied to a literally empty partition does not
return an empty fragment list — `estacao_df["id_estacao"].iloc[0]` raises
`IndexError` (modelled by `none`) — and a run with zero units does not complete
with empty results under every pipeline: `processa_medias_moveis` ends in
`pd.concat(list(resultados))`, and `pd.concat` of the empty result list raises
`ValueError` (modelled by `none`). -/
theorem particao_vazia_contra :
    worker_anomalias [] = none ∧ processa_medias_moveis [] = none :=
  ⟨rfl, rfl⟩

/-- C8 amended: on a run with zero units the percentage and co-occurrence
pipelines complete immediately with empty fragment lists, but the
moving-average pipeline raises `ValueError` at its final `pd.concat`; the
queue worker's `process_station` returns `None` (no report, not an error)
whenever its station filter selects no rows, and raises `KeyError` — not a
result — whenever it selects any row; and the partitioner never produces an
empty unit, so the workers' empty-frame `IndexError` branch is unreachable
through the pipeline. -/
theorem particao_vazia_amended :
    processa_anomalias [] = some [] ∧
    processa_coocorrencias [] = some [] ∧
    processa_medias_moveis [] = none ∧
    (∀ (all_data : List Reading) (sid : String),
      all_data.filter (fun r => decide (r.id_estacao = sid)) = [] →
      process_station all_data sid = .ok none) ∧
    (∀ (all_data : List Reading) (sid : String),
      all_data.filter (fun r => decide (r.id_estacao = sid)) ≠ [] →
      process_station all_data sid = .error "KeyError: timestamp") ∧
    (∀ df : List (Reading × Flags), [] ∉ grupos_por_estacao df) := by
  refine ⟨rfl, rfl, rfl, ?_, ?_, ?_⟩
  · intro all_data sid h
    simp only [process_station, h]
  · intro all_data sid h
    rcases hf : all_data.filter (fun r => decide (r.id_estacao = sid)) with _ | ⟨a, l⟩
    · exact absurd hf h
    · simp only [process_station, hf]
  · intro df hmem
    obtain ⟨e, he, heq⟩ := List.mem_map.1 hmem
    obtain ⟨q, hq, hqe⟩ := List.mem_map.1 (List.mem_dedup.1 he)
    have hqf : q ∈ df.filter fun q => decide (q.1.id_estacao = e) :=
      List.mem_filter.2 ⟨hq, by simp [hqe]⟩
    rw [heq] at hqf
    exact List.not_mem_nil q hqf

/-- Witness for C8 amended at an empty frame and at a one-row frame whose
single reading belongs to the requested station. -/
theorem particao_vazia_amended_witness :
    process_station [] "STA-001" = .ok none ∧
    process_station [leitura_10] "STA-001" = .error "KeyError: timestamp" :=
  ⟨particao_vazia_amended.2.2.2.1 [] "STA-001" rfl,
   particao_vazia_amended.2.2.2.2.1 [leitura_10] "STA-001" (by decide)⟩

/-- C7 amended: for a partition with exactly one reading, each sensor's anomaly
percentage is 0% or 100% — under the reference engine's statistical rule it is
always 100%, because the lone reading's sample std is `NaN` and the reading is
classified anomalous on every sensor; consequently the reference moving-average
series is empty (the reading is excluded) and the reference co-occurrence count
is 1, not 0.  Under the fixed-bounds backends, the percentage is 0% or 100% per
sensor, the moving average equals the single reading's values exactly when no
sensor is anomalous, and the co-occurrence count is 0 exactly when at most one
sensor is anomalous. -/
theorem leitura_unica_amended :
    (∀ (r : Reading) (s : Sensor),
      percentual_anomalias [r] r.id_estacao s = 100) ∧
    (∀ r : Reading, media_movel_regiao [r] = []) ∧
    (∀ r : Reading, periodos_concorrentes [r] r.id_estacao = 1) ∧
    (∀ (q : Reading × Flags) (f : PercFrag),
      f ∈ (worker_anomalias [q]).getD [] →
      f.percentual_anomalias = 0 ∨ f.percentual_anomalias = 100) ∧
    (∀ q : Reading × Flags, q.2.alguma = false →
      worker_media_movel [q] =
        some (q.1.regiao,
          [{ timestamp := q.1.timestamp, temperatura := q.1.temperatura,
             umidade := q.1.umidade, pressao := q.1.pressao }])) ∧
    (∀ q : Reading × Flags, sensores_quentes [q] ≤ 1 →
      worker_coocorrencia [q] =
        some { id_estacao := q.1.id_estacao
               periodos_multianomalias_10min := 0 }) := by
  refine ⟨?_, ?_, ?_, ?_, ?_, ?_⟩
  · intro r s
    cases s <;>
      norm_num [percentual_anomalias, ref_flags, stat_flag, sample_var,
        Flags.coluna, Sensor.valor, List.countP_cons, List.countP_nil]
  · intro r
    simp [media_movel_regiao, ref_flags, stat_flag, sample_var, Flags.alguma]
  · intro r
    norm_num [periodos_concorrentes, ref_flagged, ref_flags, stat_flag,
      sample_var, quentes_na_janela, List.dedup, List.pwFilter,
      List.countP_cons, List.countP_nil]
  · intro q f hf
    simp [worker_anomalias, sensores] at hf
    rcases hf with rfl | rfl | rfl <;>
      rcases hc : q.2.coluna Sensor.temperatura with _ | _ <;>
      rcases hu : q.2.coluna Sensor.umidade with _ | _ <;>
      rcases hp : q.2.coluna Sensor.pressao with _ | _ <;>
      norm_num [List.countP_cons, List.countP_nil, hc, hu, hp]
  · intro q h
    have ht : q.1.timestamp - 600 < q.1.timestamp := by omega
    simp [worker_media_movel, sort_values_timestamp, List.insertionSort,
      rolling_media_rows, janela_10min, h, ht, series_mean]
  · intro q h
    have ht : q.1.timestamp - 600 < q.1.timestamp := by omega
    have hq : ¬(1 < sensores_quentes (janela_10min [] q)) := by
      simp [janela_10min, ht]
      omega
    simp [worker_coocorrencia, sort_values_timestamp, List.insertionSort,
      rolling_cooc_rows, hq]

/-- Witness for C7 amended: the single in-bounds reading under the reference
engine and under the fixed-bounds workers. -/
theorem leitura_unica_amended_witness :
    percentual_anomalias [leitura_unica] "STA-001" Sensor.temperatura = 100 ∧
    worker_media_movel [detectar_anomalias leitura_unica] =
      some ("Sul",
        [{ timestamp := 0, temperatura := 20, umidade := 50, pressao := 1000 }]) ∧
    worker_coocorrencia [detectar_anomalias leitura_unica] =
      some { id_estacao := "STA-001", periodos_multianomalias_10min := 0 } :=
  ⟨leitura_unica_amended.1 leitura_unica .temperatura,
   leitura_unica_amended.2.2.2.2.1 (detectar_anomalias leitura_unica) (by decide),
   leitura_unica_amended.2.2.2.2.2 (detectar_anomalias leitura_unica) (by decide)⟩

/-- Constructor for the C5 partition rows: one station, one region, constant
humidity and pressure, varying temperature. -/
def mkC5 (t : Int) (v : Rat) : Reading :=
  { timestamp := t, id_estacao := "STA-001", regiao := "Sul",
    temperatura := v, umidade := 50, pressao := 1000 }

/-- The C5 partition: ten zero temperatures, then 5, then an extreme outlier
1000, at one-minute spacing.  Under the statistical rule only the outlier is
anomalous; after removing it, the sample deviation shrinks enough that the
value 5 becomes anomalous. -/
def particao_m : List Reading :=
  [mkC5 0 0, mkC5 60 0, mkC5 120 0, mkC5 180 0, mkC5 240 0, mkC5 300 0,
   mkC5 360 0, mkC5 420 0, mkC5 480 0, mkC5 540 0, mkC5 600 5, mkC5 660 1000]

example : particao_m.Sorted regiao_ts_le := by
  simp [particao_m, List.sorted_cons, regiao_ts_le, mkC5]

example : stat_flag [0,0,0,0,0,0,0,0,0,0,5,1000] (1000:Rat) = true := by
  norm_num [stat_flag, sample_var, series_mean]

example : stat_flag [50,50,50,50,50,50,50,50,50,50,50,50] (50:Rat) = false := by
  norm_num [stat_flag, sample_var, series_mean]

example : particao_m.erase (mkC5 660 1000) =
    [mkC5 0 0, mkC5 60 0, mkC5 120 0, mkC5 180 0, mkC5 240 0, mkC5 300 0,
     mkC5 360 0, mkC5 420 0, mkC5 480 0, mkC5 540 0, mkC5 600 5] := by decide

example : ∀ (t : Int) (v : Rat),
    ref_flags particao_m (mkC5 t v) =
      { temperatura_anormal := stat_flag [0,0,0,0,0,0,0,0,0,0,5,1000] v
        umidade_anormal := stat_flag [50,50,50,50,50,50,50,50,50,50,50,50] 50
        pressao_anormal :=
          stat_flag [1000,1000,1000,1000,1000,1000,1000,1000,1000,1000,1000,1000] 1000 } := by
  intro t v
  simp [ref_flags, particao_m, mkC5, Sensor.valor]

/-- `particao_m` with its outlier removed. -/
def particao_m_sem_outlier : List Reading :=
  [mkC5 0 0, mkC5 60 0, mkC5 120 0, mkC5 180 0, mkC5 240 0, mkC5 300 0,
   mkC5 360 0, mkC5 420 0, mkC5 480 0, mkC5 540 0, mkC5 600 5]

/-- The timestamps of the reference rolling-mean output rows are exactly the
timestamps of the clean sorted input rows. -/
theorem rolling10_rows_map_ts :
    ∀ (prev l : List Reading),
      (rolling10_rows prev l).map (fun q => q.row.timestamp) =
        l.map fun r => r.timestamp := by
  intro prev l
  induction l generalizing prev with
  | nil => rfl
  | cons x xs ih => simp [rolling10_rows, ih]

/-- C5 counterexample: in the reference engine, removing the anomalous outlier
of `particao_m` does NOT leave every moving-average value unchanged — with the
outlier gone, the partition's sample deviation shrinks, the reading with value
5 (timestamp 600) becomes anomalous and drops out of the clean set, and its
moving-average row disappears from the output series. -/
theorem remover_anomalo_muda_media_ref :
    (ref_flags particao_m (mkC5 660 1000)).temperatura_anormal = true ∧
    particao_m.erase (mkC5 660 1000) = particao_m_sem_outlier ∧
    ((media_movel_regiao particao_m).map fun q => q.row.timestamp) =
      [0, 60, 120, 180, 240, 300, 360, 420, 480, 540, 600] ∧
    ((media_movel_regiao particao_m_sem_outlier).map fun q => q.row.timestamp) =
      [0, 60, 120, 180, 240, 300, 360, 420, 480, 540] := by
  have h0 : stat_flag [0,0,0,0,0,0,0,0,0,0,5,1000] (0:Rat) = false := by
    norm_num [stat_flag, sample_var, series_mean]
  have h5 : stat_flag [0,0,0,0,0,0,0,0,0,0,5,1000] (5:Rat) = false := by
    norm_num [stat_flag, sample_var, series_mean]
  have hk : stat_flag [0,0,0,0,0,0,0,0,0,0,5,1000] (1000:Rat) = true := by
    norm_num [stat_flag, sample_var, series_mean]
  have hu : stat_flag [50,50,50,50,50,50,50,50,50,50,50,50] (50:Rat) = false := by
    norm_num [stat_flag, sample_var, series_mean]
  have hp : stat_flag [1000,1000,1000,1000,1000,1000,1000,1000,1000,1000,1000,1000]
      (1000:Rat) = false := by
    norm_num [stat_flag, sample_var, series_mean]
  have h0b : stat_flag [0,0,0,0,0,0,0,0,0,0,5] (0:Rat) = false := by
    norm_num [stat_flag, sample_var, series_mean]
  have h5b : stat_flag [0,0,0,0,0,0,0,0,0,0,5] (5:Rat) = true := by
    norm_num [stat_flag, sample_var, series_mean]
  have hub : stat_flag [50,50,50,50,50,50,50,50,50,50,50] (50:Rat) = false := by
    norm_num [stat_flag, sample_var, series_mean]
  have hpb : stat_flag [1000,1000,1000,1000,1000,1000,1000,1000,1000,1000,1000]
      (1000:Rat) = false := by
    norm_num [stat_flag, sample_var, series_mean]
  simp only [particao_m, particao_m_sem_outlier]
  have hrf : ∀ (t : Int) (v : Rat),
      ref_flags
        [mkC5 0 0, mkC5 60 0, mkC5 120 0, mkC5 180 0, mkC5 240 0, mkC5 300 0,
         mkC5 360 0, mkC5 420 0, mkC5 480 0, mkC5 540 0, mkC5 600 5,
         mkC5 660 1000] (mkC5 t v) =
        { temperatura_anormal := stat_flag [0,0,0,0,0,0,0,0,0,0,5,1000] v
          umidade_anormal := stat_flag [50,50,50,50,50,50,50,50,50,50,50,50] 50
          pressao_anormal :=
            stat_flag [1000,1000,1000,1000,1000,1000,1000,1000,1000,1000,1000,1000]
              1000 } := by
    intro t v
    simp [ref_flags, mkC5, Sensor.valor]
  have hrf2 : ∀ (t : Int) (v : Rat),
      ref_flags
        [mkC5 0 0, mkC5 60 0, mkC5 120 0, mkC5 180 0, mkC5 240 0, mkC5 300 0,
         mkC5 360 0, mkC5 420 0, mkC5 480 0, mkC5 540 0, mkC5 600 5] (mkC5 t v) =
        { temperatura_anormal := stat_flag [0,0,0,0,0,0,0,0,0,0,5] v
          umidade_anormal := stat_flag [50,50,50,50,50,50,50,50,50,50,50] 50
          pressao_anormal :=
            stat_flag [1000,1000,1000,1000,1000,1000,1000,1000,1000,1000,1000]
              1000 } := by
    intro t v
    simp [ref_flags, mkC5, Sensor.valor]
  refine ⟨by simp [hrf, hk], by decide, ?_, ?_⟩
  · have hclean :
        List.filter
          (fun r =>
            !(ref_flags
              [mkC5 0 0, mkC5 60 0, mkC5 120 0, mkC5 180 0, mkC5 240 0,
               mkC5 300 0, mkC5 360 0, mkC5 420 0, mkC5 480 0, mkC5 540 0,
               mkC5 600 5, mkC5 660 1000] r).alguma)
          [mkC5 0 0, mkC5 60 0, mkC5 120 0, mkC5 180 0, mkC5 240 0, mkC5 300 0,
           mkC5 360 0, mkC5 420 0, mkC5 480 0, mkC5 540 0, mkC5 600 5,
           mkC5 660 1000] =
          [mkC5 0 0, mkC5 60 0, mkC5 120 0, mkC5 180 0, mkC5 240 0, mkC5 300 0,
           mkC5 360 0, mkC5 420 0, mkC5 480 0, mkC5 540 0, mkC5 600 5] := by
      simp [hrf, h0, h5, hk, hu, hp, Flags.alguma]
    have hsorted :
        ([mkC5 0 0, mkC5 60 0, mkC5 120 0, mkC5 180 0, mkC5 240 0, mkC5 300 0,
          mkC5 360 0, mkC5 420 0, mkC5 480 0, mkC5 540 0, mkC5 600 5] :
            List Reading).Sorted regiao_ts_le := by
      simp [List.sorted_cons, regiao_ts_le, mkC5]
    simp only [media_movel_regiao, hclean, List.Sorted.insertionSort_eq hsorted]
    simp [mkC5, List.dedup, List.pwFilter, rolling10_rows_map_ts]
  · have hclean2 :
        List.filter
          (fun r =>
            !(ref_flags
              [mkC5 0 0, mkC5 60 0, mkC5 120 0, mkC5 180 0, mkC5 240 0,
               mkC5 300 0, mkC5 360 0, mkC5 420 0, mkC5 480 0, mkC5 540 0,
               mkC5 600 5] r).alguma)
          [mkC5 0 0, mkC5 60 0, mkC5 120 0, mkC5 180 0, mkC5 240 0, mkC5 300 0,
           mkC5 360 0, mkC5 420 0, mkC5 480 0, mkC5 540 0, mkC5 600 5] =
          [mkC5 0 0, mkC5 60 0, mkC5 120 0, mkC5 180 0, mkC5 240 0, mkC5 300 0,
           mkC5 360 0, mkC5 420 0, mkC5 480 0, mkC5 540 0] := by
      simp [hrf2, h0b, h5b, hub, hpb, Flags.alguma]
    have hsorted2 :
        ([mkC5 0 0, mkC5 60 0, mkC5 120 0, mkC5 180 0, mkC5 240 0, mkC5 300 0,
          mkC5 360 0, mkC5 420 0, mkC5 480 0, mkC5 540 0] :
            List Reading).Sorted regiao_ts_le := by
      simp [List.sorted_cons, regiao_ts_le, mkC5]
    simp only [media_movel_regiao, hclean2, List.Sorted.insertionSort_eq hsorted2]
    simp [mkC5, List.dedup, List.pwFilter, rolling10_rows_map_ts]

theorem filter_erase_of_neg {α} [DecidableEq α] {p : α → Bool} {a : α}
    (h : p a = false) : ∀ l : List α, (l.erase a).filter p = l.filter p := by
  intro l
  induction l with
  | nil => rfl
  | cons b bs ih =>
    by_cases hb : b = a
    · subst hb
      rw [List.erase_cons_head]
      simp [List.filter_cons, h]
    · rw [List.erase_cons_tail (by simp [hb])]
      simp only [List.filter_cons, ih]

theorem orderedInsert_of_forall {α} (r : α → α → Prop) [DecidableRel r] {a : α} :
    ∀ {l : List α}, (∀ c ∈ l, r a c) → l.orderedInsert r a = a :: l := by
  intro l h
  cases l with
  | nil => rfl
  | cons b bs => simp [List.orderedInsert, h b (List.mem_cons_self b bs)]

theorem filter_orderedInsert_neg {α} (r : α → α → Prop) [DecidableRel r]
    (p : α → Bool) (a : α) (h : p a = false) :
    ∀ l : List α, (l.orderedInsert r a).filter p = l.filter p := by
  intro l
  induction l with
  | nil => simp [List.orderedInsert, h]
  | cons b bs ih =>
    simp only [List.orderedInsert]
    split
    · simp [List.filter_cons, h]
    · simp only [List.filter_cons, ih]

theorem filter_orderedInsert_pos {α} (r : α → α → Prop) [DecidableRel r]
    [IsTrans α r] (p : α → Bool) (a : α) (h : p a = true) :
    ∀ l : List α, l.Sorted r →
      (l.orderedInsert r a).filter p = (l.filter p).orderedInsert r a := by
  intro l
  induction l with
  | nil => simp [List.orderedInsert, h]
  | cons b bs ih =>
    intro hs
    simp only [List.orderedInsert]
    split
    · rename_i hrab
      by_cases hpb : p b = true
      · simp [List.filter_cons, h, hpb, List.orderedInsert, hrab]
      · have hall : ∀ c ∈ bs.filter p, r a c := by
          intro c hc
          have hcbs : c ∈ bs := List.mem_of_mem_filter hc
          exact Trans.trans hrab (List.rel_of_sorted_cons hs c hcbs)
        rw [List.filter_cons_of_pos h, List.filter_cons_of_neg hpb,
          orderedInsert_of_forall r hall]
    · rename_i hrab
      have hs2 : bs.Sorted r := List.Sorted.of_cons hs
      by_cases hpb : p b = true
      · simp [List.filter_cons, hpb, ih hs2, List.orderedInsert, hrab]
      · simp [List.filter_cons, hpb, ih hs2]

theorem filter_insertionSort {α} (r : α → α → Prop) [DecidableRel r]
    [IsTotal α r] [IsTrans α r] (p : α → Bool) :
    ∀ l : List α,
      (l.insertionSort r).filter p = (l.filter p).insertionSort r := by
  intro l
  induction l with
  | nil => rfl
  | cons a as ih =>
    simp only [List.insertionSort]
    by_cases hpa : p a = true
    · rw [filter_orderedInsert_pos r p a hpa _ (List.sorted_insertionSort r as),
        ih]
      simp [List.filter_cons, hpa, List.insertionSort]
    · rw [filter_orderedInsert_neg r p a (by simpa using hpa), ih]
      simp [List.filter_cons, hpa]

/-- C5 amended: the moving average is computed only over readings with no
anomalous sensor, after sorting by time, and under the FIXED-BOUNDS rule used
by the queue backend (`calcular_media_movel`) the classification of a reading
does not depend on the rest of the partition, so removing an anomalous reading
leaves the whole moving-average output unchanged.  (Under the reference
engine's statistical rule the corresponding statement is false: see the C5
counterexample `remover_anomalo_muda_media_ref`.) -/
theorem media_movel_fixa_invariante_remocao
    (l : List Reading) (r : Reading) (hmem : r ∈ l)
    (hanom : (detectar_anomalias r).2.alguma = true) :
    calcular_media_movel (l.erase r) = calcular_media_movel l := by
  have hinj : Function.Injective detectar_anomalias := by
    intro a b h
    exact congrArg Prod.fst h
  have hclean :
      (sort_values_timestamp ((l.erase r).map detectar_anomalias)).filter
        (fun q => !q.2.alguma) =
      (sort_values_timestamp (l.map detectar_anomalias)).filter
        (fun q => !q.2.alguma) := by
    rw [List.map_erase hinj]
    unfold sort_values_timestamp
    rw [filter_insertionSort ts_le, filter_insertionSort ts_le,
      filter_erase_of_neg (by simp [hanom])]
  simp only [calcular_media_movel, hclean]

/-- Witness for C5 amended: removing an out-of-bounds reading from a
two-reading partition leaves the queue backend's moving average unchanged. -/
theorem media_movel_fixa_invariante_remocao_witness :
    calcular_media_movel ([leitura_10, leitura_q1].erase leitura_q1) =
      calcular_media_movel [leitura_10, leitura_q1] :=
  media_movel_fixa_invariante_remocao [leitura_10, leitura_q1] leitura_q1
    (by decide) (by decide)

theorem setKey_map_fst {d : List (String × JVal)} {k : String} {v : JVal}
    (h : k ∈ d.map Prod.fst) :
    (setKey d k v).map Prod.fst = d.map Prod.fst := by
  induction d with
  | nil => simp at h
  | cons b bs ih =>
    obtain ⟨k2, w⟩ := b
    simp only [setKey]
    by_cases hk : k = k2
    · simp [hk]
    · simp only [if_neg hk, List.map_cons]
      have h2 : k ∈ bs.map Prod.fst := by
        simp only [List.map_cons, List.mem_cons] at h
        rcases h with h | h
        · exact absurd h hk
        · exact h
      rw [ih h2]

theorem lookupJ_setKey_ne {d : List (String × JVal)} {k k2 : String} {v : JVal}
    (h : k2 ≠ k) : lookupJ k2 (setKey d k v) = lookupJ k2 d := by
  induction d with
  | nil => simp [setKey, lookupJ, h]
  | cons b bs ih =>
    obtain ⟨k3, w⟩ := b
    simp only [setKey]
    by_cases hk : k = k3
    · subst hk
      simp [lookupJ, h]
    · simp only [if_neg hk, lookupJ]
      split
      · rfl
      · exact ih

theorem compare_one_congr_left {d1 d1' d2 : List (String × JVal)} {k p : String}
    (h : lookupJ k d1' = lookupJ k d1) :
    compare_one d1' d2 k p = compare_one d1 d2 k p := by
  simp only [compare_one, h]

theorem compare_one_congr_right {d1 d2 d2' : List (String × JVal)} {k p : String}
    (h : lookupJ k d2' = lookupJ k d2) :
    compare_one d1 d2' k p = compare_one d1 d2 k p := by
  simp only [compare_one, h]

theorem compare_keys_setKey_left (ks : List String)
    (d1 d2 : List (String × JVal)) (path : String) (v : JVal) :
    compare_keys ks (setKey d1 "tempo_execucao_ms" v) d2 path =
      compare_keys ks d1 d2 path := by
  induction ks with
  | nil => simp [compare_keys]
  | cons k rest ih =>
    simp only [compare_keys]
    by_cases hk : k = "tempo_execucao_ms"
    · simp [hk, ih]
    · rw [if_neg hk, if_neg hk, ih, lookupJ_setKey_ne hk]

theorem compare_keys_setKey_right (ks : List String)
    (d1 d2 : List (String × JVal)) (path : String) (v : JVal) :
    compare_keys ks d1 (setKey d2 "tempo_execucao_ms" v) path =
      compare_keys ks d1 d2 path := by
  induction ks with
  | nil => simp [compare_keys]
  | cons k rest ih =>
    simp only [compare_keys]
    by_cases hk : k = "tempo_execucao_ms"
    · simp [hk, ih]
    · rw [if_neg hk, if_neg hk, ih, lookupJ_setKey_ne hk]

/-- C10: the comparator's output — verdict and reported paths alike — is
invariant under changing the value stored at the key `tempo_execucao_ms` in
either structure (whenever that key is present, so that the replacement does
not alter the key sets): the key is skipped during the per-key walk and the
key-set check sees the same keys. -/
theorem comparator_ignora_tempo :
    (∀ (d1 d2 : List (String × JVal)) (path : String) (v : JVal),
      "tempo_execucao_ms" ∈ d1.map Prod.fst →
      compare_dicts (setKey d1 "tempo_execucao_ms" v) d2 path =
        compare_dicts d1 d2 path) ∧
    (∀ (d1 d2 : List (String × JVal)) (path : String) (v : JVal),
      "tempo_execucao_ms" ∈ d2.map Prod.fst →
      compare_dicts d1 (setKey d2 "tempo_execucao_ms" v) path =
        compare_dicts d1 d2 path) := by
  constructor
  · intro d1 d2 path v hmem
    simp only [compare_dicts, setKey_map_fst hmem, compare_keys_setKey_left]
  · intro d1 d2 path v hmem
    simp only [compare_dicts, setKey_map_fst hmem, compare_keys_setKey_right]

/-- Witness for C10: replacing a concrete elapsed-time value on either side of
a concrete comparison leaves the comparator's output unchanged. -/
theorem comparator_ignora_tempo_witness :
    compare_dicts
        (setKey [("tempo_execucao_ms", JVal.num 5 true)] "tempo_execucao_ms"
          (JVal.num 999 true))
        [("tempo_execucao_ms", JVal.num 5 true)] "" =
      compare_dicts [("tempo_execucao_ms", JVal.num 5 true)]
        [("tempo_execucao_ms", JVal.num 5 true)] "" ∧
    compare_dicts [("tempo_execucao_ms", JVal.num 5 true)]
        (setKey [("tempo_execucao_ms", JVal.num 5 true)] "tempo_execucao_ms"
          (JVal.num 999 true)) "" =
      compare_dicts [("tempo_execucao_ms", JVal.num 5 true)]
        [("tempo_execucao_ms", JVal.num 5 true)] "" :=
  ⟨comparator_ignora_tempo.1 [("tempo_execucao_ms", JVal.num 5 true)]
      [("tempo_execucao_ms", JVal.num 5 true)] "" (JVal.num 999 true)
      (by simp),
   comparator_ignora_tempo.2 [("tempo_execucao_ms", JVal.num 5 true)]
      [("tempo_execucao_ms", JVal.num 5 true)] "" (JVal.num 999 true)
      (by simp)⟩

theorem countP_eq_ite_of_nodup {α} [DecidableEq α] {l : List α} (hl : l.Nodup)
    (k : α) : (l.countP fun d => decide (d = k)) = if k ∈ l then 1 else 0 := by
  induction l with
  | nil => simp
  | cons b bs ih =>
    rw [List.countP_cons]
    rcases List.nodup_cons.1 hl with ⟨hnb, hbs⟩
    by_cases hb : b = k
    · subst hb
      have hnotin : b ∉ bs := hnb
      rw [ih hbs, if_neg hnotin]
      simp
    · rw [ih hbs]
      by_cases hkbs : k ∈ bs <;>
        simp [hb, hkbs, List.mem_cons, Ne.symm hb]

theorem countP_sum_eq_filter_length {β} [DecidableEq β] (det : List β)
    (hdet : det.Nodup) :
    ∀ keys : List β,
      (keys.map fun k => det.countP fun d => decide (d = k)).sum =
        (keys.filter fun k => decide (k ∈ det)).length := by
  intro keys
  induction keys with
  | nil => rfl
  | cons b bs ih =>
    rw [List.map_cons, List.sum_cons, List.filter_cons, ih,
      countP_eq_ite_of_nodup hdet b]
    by_cases hb : b ∈ det <;> simp [hb] <;> omega

theorem filter_mem_length_eq_inter_card {β} [DecidableEq β] {ks : List β}
    (hk : ks.Nodup) (det : List β) :
    (ks.filter fun k => decide (k ∈ det)).length =
      (ks.toFinset ∩ det.toFinset).card := by
  rw [← List.toFinset_card_of_nodup (hk.filter fun k => decide (k ∈ det)),
    List.toFinset_filter]
  congr 1
  rw [← Finset.filter_mem_eq_inter]
  apply Finset.filter_congr
  intro x _
  simp

theorem bloco_nodup (df : List (Reading × Flags)) (s : Sensor)
    (hd : (df.map fun q => (q.1.timestamp, q.1.id_estacao)).Nodup) :
    ((df.filter fun q => q.2.coluna s).map fun q =>
      ((q.1.timestamp, q.1.id_estacao, s.nome) : Int × String × String)).Nodup := by
  have h1 : ((df.filter fun q => q.2.coluna s).map
      fun q => (q.1.timestamp, q.1.id_estacao)).Nodup :=
    ((List.filter_sublist df).map fun q => (q.1.timestamp, q.1.id_estacao)).nodup hd
  have hinj : Function.Injective
      fun t : Int × String => (t.1, t.2, s.nome) := by
    intro a b hab
    simp only [Prod.mk.injEq] at hab
    exact Prod.ext hab.1 hab.2.1
  have h2 := h1.map hinj
  rw [List.map_map] at h2
  exact h2

theorem melt_detectadas_nodup {df : List (Reading × Flags)}
    (hd : (df.map fun q => (q.1.timestamp, q.1.id_estacao)).Nodup) :
    (melt_detectadas df).Nodup := by
  have ht := bloco_nodup df .temperatura hd
  have hu := bloco_nodup df .umidade hd
  have hp := bloco_nodup df .pressao hd
  simp only [melt_detectadas, sensores, List.map_cons, List.map_nil,
    List.flatten_cons, List.flatten_nil, List.append_nil]
  rw [List.nodup_append, List.nodup_append]
  refine ⟨ht, ⟨hu, hp, ?_⟩, ?_⟩
  · intro a hau hap
    obtain ⟨q1, _, rfl⟩ := List.mem_map.1 hau
    obtain ⟨q2, _, hemq⟩ := List.mem_map.1 hap
    simp [Sensor.nome] at hemq
  · intro a hat hrest
    obtain ⟨q1, _, rfl⟩ := List.mem_map.1 hat
    rcases List.mem_append.1 hrest with hau | hap
    · obtain ⟨q2, _, hemq⟩ := List.mem_map.1 hau
      simp [Sensor.nome] at hemq
    · obtain ⟨q2, _, hemq⟩ := List.mem_map.1 hap
      simp [Sensor.nome] at hemq

/-- C9: with the ground-truth file present, `validar_corretude` returns
exactly the number of join keys `(timestamp, id_estacao, sensor_anomalo)`
present on both sides — in the ground truth and among the detected-anomaly
events (these are the `both` rows of the outer merge) — assuming each side's
keys are unique; for the detected side, uniqueness follows from the readings
being unique per (timestamp, station).  With the file absent, it returns
`none` rather than raising. -/
theorem validar_corretude_conta_chaves
    (gab : List GroundTruth) (df : List (Reading × Flags))
    (hg : (gab.map gt_key).Nodup)
    (hd : (df.map fun q => (q.1.timestamp, q.1.id_estacao)).Nodup) :
    validar_corretude (some gab) df =
      some { verdadeiros_positivos :=
        ((gab.map gt_key).toFinset ∩ (melt_detectadas df).toFinset).card } ∧
    validar_corretude none df = none := by
  refine ⟨?_, rfl⟩
  have hmelt : (melt_detectadas df).Nodup := melt_detectadas_nodup hd
  have hmain :
      (gab.map fun g =>
        (melt_detectadas df).countP fun d => decide (d = gt_key g)).sum =
      ((gab.map gt_key).toFinset ∩ (melt_detectadas df).toFinset).card := by
    have hstep1 :
        (gab.map fun g =>
          (melt_detectadas df).countP fun d => decide (d = gt_key g)).sum =
        ((gab.map gt_key).map fun k =>
          (melt_detectadas df).countP fun d => decide (d = k)).sum := by
      rw [List.map_map]
      rfl
    rw [hstep1, countP_sum_eq_filter_length _ hmelt,
      filter_mem_length_eq_inter_card hg]
  simp only [validar_corretude, hmain]

/-- Witness for C9: one matching ground-truth row against one detected
anomaly. -/
theorem validar_corretude_conta_chaves_witness :
    validar_corretude
        (some [{ timestamp := 0, id_estacao := "STA-001",
                 sensor_anomalo := "temperatura", valor_anomalo := 100 }])
        [detectar_anomalias leitura_q1] =
      some { verdadeiros_positivos :=
        (([({ timestamp := 0, id_estacao := "STA-001",
              sensor_anomalo := "temperatura", valor_anomalo := 100 } :
              GroundTruth)].map gt_key).toFinset ∩
          (melt_detectadas [detectar_anomalias leitura_q1]).toFinset).card } :=
  (validar_corretude_conta_chaves
    [{ timestamp := 0, id_estacao := "STA-001",
       sensor_anomalo := "temperatura", valor_anomalo := 100 }]
    [detectar_anomalias leitura_q1] (by decide) (by decide)).1

/-- The perturbation of the C6 counterexample: 1e-10, inside the comparator's
1e-9 tolerance. -/
def eps_c6 : Rat := 1 / 10000000000

/-- First structure of the C6 counterexample: one integer leaf 1. -/
def dict_c6_a : List (String × JVal) := [("a", JVal.num 1 false)]

/-- Second structure of the C6 counterexample: one float leaf within 1e-10 of
the other structure's integer leaf. -/
def dict_c6_b : List (String × JVal) :=
  [("a", JVal.num (1 + eps_c6) true)]

theorem isclose_c6_eval : isclose 1 (1 + eps_c6) = true := by
  have habs : |(1 : Rat) - (1 + eps_c6)| ≤ (1 : Rat) / 1000000000 := by
    rw [show (1 : Rat) - (1 + eps_c6) = -eps_c6 by ring, abs_neg,
      abs_of_nonneg (by norm_num [eps_c6])]
    norm_num [eps_c6]
  simp only [isclose, decide_eq_true_eq]
  exact le_trans habs (le_max_right _ _)

theorem claimC6_eval : claimC6Match dict_c6_a dict_c6_b = true := by
  rw [claimC6Match.eq_def]
  simp [dict_c6_a, dict_c6_b, keySetEq, lookupJ, claimC6_sub, isclose_c6_eval]

theorem compare_dicts_c6_eval :
    (compare_dicts dict_c6_a dict_c6_b "").1 = false ∧
    (compare_dicts dict_c6_a dict_c6_b "").2 = ["a"] := by
  have hpy : pyEq (JVal.num 1 false) (JVal.num (1 + eps_c6) true) = false := by
    rw [pyEq.eq_def]
    norm_num [eps_c6]
  rw [compare_dicts.eq_def]
  simp only [dict_c6_a, dict_c6_b, List.map_cons, List.map_nil]
  rw [if_pos (by rfl)]
  simp only [List.insertionSort, List.orderedInsert]
  rw [compare_keys.eq_def]
  simp only [compare_keys]
  rw [if_neg (by decide)]
  simp [lookupJ, compare_sub, compare_values, hpy]

/-- C6 counterexample: the claim's "equal exactly when key sets match at every
composite level and every numeric leaf pair differs by at most 1e-9" fails on
an int/float pair: the key sets match and the single numeric leaf pair differs
by only 1e-10, yet the comparator declares the structures unequal, because
`compare_values` applies the tolerance only when BOTH values are Python floats
and otherwise falls back to exact equality. -/
theorem comparator_claim_contra :
    claimC6Match dict_c6_a dict_c6_b = true ∧
    (compare_dicts dict_c6_a dict_c6_b "").1 = false :=
  ⟨claimC6_eval, compare_dicts_c6_eval.1⟩

theorem if_report_eq (b : Bool) (p : String) :
    (if !b then ((false, [p]) : Bool × List String) else (true, [])) =
      (b, if b then [] else [p]) := by
  cases b <;> rfl

theorem compare_values_eq (v1 v2 : JVal) (p : String) :
    compare_values v1 v2 p =
      (leafMatch v1 v2, if leafMatch v1 v2 then [] else [p]) := by
  unfold compare_values leafMatch
  rcases v1 with ⟨a, fa⟩ | s1 | b1 | _ | e1 | l1 <;>
    rcases v2 with ⟨b, fb⟩ | s2 | b2 | _ | e2 | l2 <;>
    first
      | (cases fa <;> cases fb <;> exact if_report_eq _ _)
      | (cases fa <;> exact if_report_eq _ _)
      | (cases fb <;> exact if_report_eq _ _)
      | exact if_report_eq _ _

theorem compare_values_fst (v1 v2 : JVal) (p : String) :
    (compare_values v1 v2 p).1 = leafMatch v1 v2 := by
  rw [compare_values_eq]

theorem compare_values_reports (v1 v2 : JVal) (p : String)
    (h : (compare_values v1 v2 p).1 = false) :
    (compare_values v1 v2 p).2 ≠ [] := by
  rw [compare_values_eq] at h ⊢
  simp only at h
  simp [h]

theorem compare_list_fst (p : String) :
    ∀ (l1 l2 : List JVal) (i : Nat),
      (compare_list l1 l2 p i).1 =
        ((l1.zip l2).all fun q => leafMatch q.1 q.2) := by
  intro l1
  induction l1 with
  | nil => intro l2 i; cases l2 <;> simp [compare_list]
  | cons x xs ih =>
    intro l2 i
    cases l2 with
    | nil => simp [compare_list]
    | cons y ys =>
      simp [compare_list, List.zip_cons_cons, List.all_cons, ih,
        compare_values_fst]

theorem compare_list_reports (p : String) :
    ∀ (l1 l2 : List JVal) (i : Nat),
      (compare_list l1 l2 p i).1 = false → (compare_list l1 l2 p i).2 ≠ [] := by
  intro l1
  induction l1 with
  | nil => intro l2 i h; cases l2 <;> simp [compare_list] at h
  | cons x xs ih =>
    intro l2 i h
    cases l2 with
    | nil => simp [compare_list] at h
    | cons y ys =>
      simp only [compare_list, Bool.and_eq_false_iff] at h ⊢
      rcases h with h | h
      · have := compare_values_reports x y _ h
        simp [this]
      · have := ih ys (i + 1) h
        simp [this]

theorem lookupJ_isSome_of_mem {k : String} :
    ∀ {d : List (String × JVal)},
      k ∈ d.map Prod.fst → ∃ v, lookupJ k d = some v := by
  intro d
  induction d with
  | nil => simp
  | cons b bs ih =>
    intro h
    obtain ⟨k2, w⟩ := b
    by_cases hk : k = k2
    · exact ⟨w, by simp [lookupJ, hk]⟩
    · simp only [List.map_cons, List.mem_cons] at h
      rcases h with h | h
      · exact absurd h hk
      · obtain ⟨v, hv⟩ := ih h
        exact ⟨v, by simp [lookupJ, hk, hv]⟩

theorem keySetEq_mem {ks1 ks2 : List String} (h : keySetEq ks1 ks2 = true)
    {k : String} (hk : k ∈ ks1) : k ∈ ks2 := by
  unfold keySetEq at h
  rw [Bool.and_eq_true, List.all_eq_true, List.all_eq_true] at h
  have h2 := h.1 k hk
  simpa using h2

theorem compare_keys_fst (d1 d2 : List (String × JVal)) (path : String) :
    ∀ ks : List String,
      (compare_keys ks d1 d2 path).1 =
        (ks.all fun k => (k == "tempo_execucao_ms") ||
          (compare_one d1 d2 k
            (if path = "" then k else path ++ "." ++ k)).1) := by
  intro ks
  induction ks with
  | nil => simp [compare_keys]
  | cons k rest ih =>
    simp only [compare_keys, List.all_cons]
    by_cases hk : k = "tempo_execucao_ms"
    · simp [hk, ih]
    · have hkb : (k == "tempo_execucao_ms") = false := by simp [hk]
      simp [if_neg hk, hkb, ih, compare_one]

theorem compare_one_iff (n : Nat)
    (ih : ∀ e1 : List (String × JVal), sizeOf e1 ≤ n →
      ∀ (e2 : List (String × JVal)) (path : String),
        ((compare_dicts e1 e2 path).1 = true ↔ structMatch e1 e2 = true))
    (d1 d2 : List (String × JVal)) (hsz : sizeOf d1 ≤ n + 1)
    (k path : String) (hk1 : k ∈ d1.map Prod.fst)
    (hk2 : k ∈ d2.map Prod.fst) :
    ((compare_one d1 d2 k path).1 = true ↔ struct_one d1 d2 k = true) := by
  obtain ⟨v1, hv1⟩ := lookupJ_isSome_of_mem hk1
  obtain ⟨v2, hv2⟩ := lookupJ_isSome_of_mem hk2
  simp only [compare_one, struct_one, hv1, hv2]
  rcases v1 with ⟨a, fa⟩ | s1 | b1 | _ | e1 | l1 <;>
    rcases v2 with ⟨b, fb⟩ | s2 | b2 | _ | e2 | l2 <;>
    simp only [compare_sub, struct_sub] <;>
    first
      | (have hs := lookupJ_sizeOf hv1
         simp only [JVal.obj.sizeOf_spec] at hs
         exact ih _ (by omega) _ path)
      | (by_cases hlen : l1.length = l2.length
         · simp [hlen, compare_list_fst]
         · simp [hlen])
      | rw [compare_values_fst]

theorem compare_dicts_iff_aux :
    ∀ n : Nat, ∀ d1 : List (String × JVal), sizeOf d1 ≤ n →
      ∀ (d2 : List (String × JVal)) (path : String),
        ((compare_dicts d1 d2 path).1 = true ↔ structMatch d1 d2 = true) := by
  intro n
  induction n with
  | zero =>
    intro d1 h
    exfalso
    cases d1 <;> simp at h
  | succ n ih =>
    intro d1 hsz d2 path
    rw [compare_dicts.eq_def, structMatch.eq_def]
    by_cases hks : keySetEq (d1.map Prod.fst) (d2.map Prod.fst) = true
    · rw [if_pos hks, hks]
      simp only [Bool.true_and]
      rw [compare_keys_fst]
      rw [List.all_eq_true, List.all_eq_true]
      constructor
      · intro h k hk
        have hks' : k ∈ (d1.map Prod.fst).insertionSort (· ≤ ·) :=
          ((List.perm_insertionSort _ _).mem_iff).2 hk
        have h2 := h k hks'
        rw [Bool.or_eq_true] at h2 ⊢
        rcases h2 with h2 | h2
        · exact Or.inl h2
        · exact Or.inr
            ((compare_one_iff n ih d1 d2 hsz k _ hk (keySetEq_mem hks hk)).1 h2)
      · intro h k hk
        have hk' : k ∈ d1.map Prod.fst :=
          ((List.perm_insertionSort _ _).mem_iff).1 hk
        have h2 := h k hk'
        rw [Bool.or_eq_true] at h2 ⊢
        rcases h2 with h2 | h2
        · exact Or.inl h2
        · exact Or.inr
            ((compare_one_iff n ih d1 d2 hsz k _ hk'
              (keySetEq_mem hks hk')).2 h2)
    · rw [if_neg hks]
      simp [hks]

theorem compare_one_reports (n : Nat)
    (ihrep : ∀ e1 : List (String × JVal), sizeOf e1 ≤ n →
      ∀ (e2 : List (String × JVal)) (path : String),
        (compare_dicts e1 e2 path).1 = false →
          (compare_dicts e1 e2 path).2 ≠ [])
    (d1 d2 : List (String × JVal)) (hsz : sizeOf d1 ≤ n + 1) (k path : String)
    (h : (compare_one d1 d2 k path).1 = false) :
    (compare_one d1 d2 k path).2 ≠ [] := by
  simp only [compare_one] at h ⊢
  rcases hv1 : lookupJ k d1 with _ | v1 <;>
    rcases hv2 : lookupJ k d2 with _ | v2 <;>
    simp only [hv1, hv2] at h ⊢
  · simp [compare_sub] at h
  · simp [compare_sub] at h
  · simp [compare_sub] at h
  rcases v1 with ⟨a, fa⟩ | s1 | b1 | _ | e1 | l1 <;>
    rcases v2 with ⟨b, fb⟩ | s2 | b2 | _ | e2 | l2 <;>
    simp only [compare_sub] at h ⊢ <;>
    first
      | (have hs := lookupJ_sizeOf hv1
         simp only [JVal.obj.sizeOf_spec] at hs
         exact ihrep _ (by omega) _ path h)
      | (by_cases hlen : l1.length = l2.length
         · rw [if_neg (by omega)] at h ⊢
           exact compare_list_reports path l1 l2 0 h
         · rw [if_pos hlen] at h ⊢
           simp)
      | exact compare_values_reports _ _ _ h

theorem compare_keys_reports (n : Nat)
    (ihrep : ∀ e1 : List (String × JVal), sizeOf e1 ≤ n →
      ∀ (e2 : List (String × JVal)) (path : String),
        (compare_dicts e1 e2 path).1 = false →
          (compare_dicts e1 e2 path).2 ≠ [])
    (d1 d2 : List (String × JVal)) (hsz : sizeOf d1 ≤ n + 1) (path : String) :
    ∀ ks : List String,
      (compare_keys ks d1 d2 path).1 = false →
        (compare_keys ks d1 d2 path).2 ≠ [] := by
  intro ks
  induction ks with
  | nil => intro h; simp [compare_keys] at h
  | cons k rest ih =>
    intro h
    simp only [compare_keys] at h ⊢
    by_cases hk : k = "tempo_execucao_ms"
    · rw [if_pos hk] at h ⊢
      exact ih h
    · rw [if_neg hk] at h ⊢
      rw [Bool.and_eq_false_iff] at h
      rcases h with h | h
      · have h2 := compare_one_reports n ihrep d1 d2 hsz k _ h
        simp only [compare_one] at h2
        simp [h2]
      · have h2 := ih h
        simp [h2]

theorem compare_dicts_reports_aux :
    ∀ n : Nat, ∀ d1 : List (String × JVal), sizeOf d1 ≤ n →
      ∀ (d2 : List (String × JVal)) (path : String),
        (compare_dicts d1 d2 path).1 = false →
          (compare_dicts d1 d2 path).2 ≠ [] := by
  intro n
  induction n with
  | zero =>
    intro d1 h
    exfalso
    cases d1 <;> simp at h
  | succ n ih =>
    intro d1 hsz d2 path h
    rw [compare_dicts.eq_def] at h ⊢
    by_cases hks : keySetEq (d1.map Prod.fst) (d2.map Prod.fst) = true
    · rw [if_pos hks] at h ⊢
      exact compare_keys_reports n ih d1 d2 hsz path _ h
    · rw [if_neg hks] at h ⊢
      simp

/-- C6 amended: the comparator declares two structures equal exactly when the
declarative condition `structMatch` holds — key sets match at every object
level reached through object nesting, the skipped `tempo_execucao_ms` key
aside, every float-float leaf pair is within the `math.isclose` 1e-9
relative-or-absolute tolerance, every other leaf pair (including int leaves and
mixed int/float pairs) is exactly Python-equal, and corresponding lists have
equal lengths with elementwise leaf agreement.  And whenever the comparator
declares a mismatch, it reports at least one offending path rather than only a
boolean. -/
theorem comparator_amended :
    (∀ (d1 d2 : List (String × JVal)) (path : String),
      ((compare_dicts d1 d2 path).1 = true ↔ structMatch d1 d2 = true)) ∧
    (∀ (d1 d2 : List (String × JVal)) (path : String),
      (compare_dicts d1 d2 path).1 = false →
        (compare_dicts d1 d2 path).2 ≠ []) :=
  ⟨fun d1 d2 path => compare_dicts_iff_aux (sizeOf d1) d1 le_rfl d2 path,
   fun d1 d2 path h => compare_dicts_reports_aux (sizeOf d1) d1 le_rfl d2 path h⟩

/-- Witness for C6 amended, at the concrete mismatching pair: the comparator
reports a non-empty path list. -/
theorem comparator_amended_witness :
    (compare_dicts dict_c6_a dict_c6_b "").2 ≠ [] :=
  comparator_amended.2 dict_c6_a dict_c6_b "" compare_dicts_c6_eval.1
